import Mathlib

/-!
Verification of the pricing and lifecycle engine of the shopcrm repository
(src/app.py).  Money values are modelled as rationals; Python's
`Decimal.quantize(Decimal("0.01"))` (banker's rounding, ROUND_HALF_EVEN) is
modelled by `quant2`.  Database rows become Lean structures, the mutable
database becomes an explicit `AppState`, and each Flask handler that the
claims mention becomes a state-transition function returning
`Except AppErr AppState` (an error means the handler redirected without
committing, so the state is unchanged).
-/

namespace ShopCRM

/-- Round a rational to an integer, ties to even (Python Decimal default). -/
def rhe (q : ℚ) : ℤ :=
  let f := ⌊q⌋
  if q - f < 1/2 then f
  else if 1/2 < q - f then f + 1
  else if f % 2 = 0 then f else f + 1

/-- `x.quantize(Decimal("0.01"))`: round to 2 decimal places, half to even. -/
def quant2 (q : ℚ) : ℚ := (rhe (q * 100) : ℚ) / 100

/-- A rational that is a whole number of cents (2-decimal money value). -/
def isCents (q : ℚ) : Prop := (q * 100).den = 1

instance (q : ℚ) : Decidable (isCents q) := by unfold isCents; infer_instance

lemma rhe_intCast (n : ℤ) : rhe (n : ℚ) = n := by
  unfold rhe
  simp

lemma isCents_iff (q : ℚ) : isCents q ↔ ∃ n : ℤ, q * 100 = (n : ℚ) := by
  constructor
  · intro h
    refine ⟨(q * 100).num, ?_⟩
    rw [← Rat.num_div_den (q * 100), h]
    simp
  · rintro ⟨n, hn⟩
    unfold isCents
    rw [hn]
    simp

lemma isCents_quant2 (q : ℚ) : isCents (quant2 q) := by
  rw [isCents_iff]
  refine ⟨rhe (q * 100), ?_⟩
  unfold quant2
  field_simp

lemma quant2_eq_self {q : ℚ} (h : isCents q) : quant2 q = q := by
  rw [isCents_iff] at h
  obtain ⟨n, hn⟩ := h
  unfold quant2
  rw [hn, rhe_intCast]
  field_simp
  linarith [hn]

lemma isCents_add {a b : ℚ} (ha : isCents a) (hb : isCents b) : isCents (a + b) := by
  rw [isCents_iff] at ha hb ⊢
  obtain ⟨m, hm⟩ := ha
  obtain ⟨n, hn⟩ := hb
  exact ⟨m + n, by push_cast; rw [add_mul, hm, hn]⟩

lemma isCents_zero : isCents 0 := by
  rw [isCents_iff]
  exact ⟨0, by norm_num⟩

lemma isCents_sum (l : List ℚ) (h : ∀ x ∈ l, isCents x) : isCents l.sum := by
  induction l with
  | nil => simpa using isCents_zero
  | cons x xs ih =>
    rw [List.sum_cons]
    exact isCents_add (h x (by simp)) (ih fun y hy => h y (by simp [hy]))

/-! ## Data model (rows of the tables used by the core) -/

/-- `RepairOrder` row (customer/vehicle references are irrelevant here). -/
structure RepairOrder where
  id : Nat
  ro_number : Nat
  status : String
  closed_at : Option Nat
  deleted_at : Option Nat
deriving DecidableEq, Repr

/-- `Job` row. -/
structure Job where
  id : Nat
  ro_id : Nat
  title : String
  status : String
  sort_order : Nat
  tech_id : Option Nat
  completed_at : Option Nat
deriving DecidableEq, Repr

/-- `Document` row. -/
structure Document where
  id : Nat
  ro_id : Nat
  doc_type : String
  version : Nat
  status : String
  subtotal : ℚ
  tax : ℚ
  total : ℚ
  sent_at : Option Nat
  locked_at : Option Nat
  share_token : Option String
deriving DecidableEq, Repr

/-- `LineItem` row. -/
structure LineItem where
  id : Nat
  document_id : Nat
  job_id : Option Nat
  item_type : String
  description : String
  qty : ℚ
  unit_price : ℚ
  taxable : Bool
  labor_hours : Option ℚ
  cost : Option ℚ
deriving DecidableEq, Repr

/-- `ROEvent` row: the append-only audit log (`log_event` in app.py). -/
structure ROEvent where
  ro_id : Nat
  event_type : String
  old_value : Option String
  new_value : Option String
deriving DecidableEq, Repr

/-- `LaborMatrixTier` row. -/
structure LaborMatrixTier where
  min_hours : ℚ
  max_hours : Option ℚ
  rate_per_hour : ℚ
deriving DecidableEq, Repr

/-- `PartsMatrixTier` row. -/
structure PartsMatrixTier where
  min_cost : ℚ
  max_cost : Option ℚ
  multiplier : ℚ
deriving DecidableEq, Repr

/-- The database state seen by the handlers, plus the clock and an id
allocator (`now` models `datetime.utcnow()`, `nextId` models autogenerated
primary keys). -/
structure AppState where
  ros : List RepairOrder
  jobs : List Job
  docs : List Document
  items : List LineItem
  events : List ROEvent
  laborTiers : List LaborMatrixTier
  partsTiers : List PartsMatrixTier
  taxRate : ℚ
  now : Nat
  nextId : Nat
deriving DecidableEq, Repr

/-! ## Generic keyed list lookup / replacement (`query.get` / `session.add`) -/

/-- `Model.query.get(i)` over an in-memory table. -/
def findBy {α : Type} (key : α → Nat) (l : List α) (i : Nat) : Option α :=
  l.find? (fun x => key x == i)

/-- Re-adding a (mutated) row: replace every row with the same key. -/
def updateBy {α : Type} (key : α → Nat) (l : List α) (a : α) : List α :=
  l.map (fun x => if key x == key a then a else x)

def findDoc (st : AppState) (i : Nat) : Option Document := findBy Document.id st.docs i

def findItem (st : AppState) (i : Nat) : Option LineItem := findBy LineItem.id st.items i

def findRO (st : AppState) (i : Nat) : Option RepairOrder := findBy RepairOrder.id st.ros i

def findJob (st : AppState) (i : Nat) : Option Job := findBy Job.id st.jobs i

def updateDoc (docs : List Document) (d : Document) : List Document := updateBy Document.id docs d

def updateRO (ros : List RepairOrder) (r : RepairOrder) : List RepairOrder := updateBy RepairOrder.id ros r

def updateJob (jobs : List Job) (j : Job) : List Job := updateBy Job.id jobs j

def updateItem (items : List LineItem) (li : LineItem) : List LineItem := updateBy LineItem.id items li

lemma findBy_updateBy {α : Type} (key : α → Nat) (l : List α) (i : Nat) (a : α) :
    findBy key (updateBy key l a) i
      = (findBy key l i).map (fun x => if key x == key a then a else x) := by
  unfold findBy updateBy
  rw [List.find?_map]
  have hcomp : ((fun x => key x == i) ∘ fun x => if key x == key a then a else x)
      = (fun x => key x == i) := by
    funext x
    by_cases hxa : key x = key a
    · simp [Function.comp, hxa]
    · simp [Function.comp, hxa]
  rw [hcomp]

lemma findBy_some_key {α : Type} {key : α → Nat} {l : List α} {i : Nat} {b : α}
    (h : findBy key l i = some b) : key b = i := by
  have h' : List.find? (fun x => key x == i) l = some b := h
  have hb := List.find?_some h'
  simpa using hb

lemma findBy_updateBy_self {α : Type} (key : α → Nat) (l : List α) (i : Nat) (a b : α)
    (h : findBy key l i = some b) (hk : key a = i) :
    findBy key (updateBy key l a) i = some a := by
  rw [findBy_updateBy, h]
  have hb : key b = i := findBy_some_key h
  simp [hb, hk]

lemma findBy_updateBy_other {α : Type} (key : α → Nat) (l : List α) (i : Nat) (a : α)
    (hk : key a ≠ i) :
    findBy key (updateBy key l a) i = findBy key l i := by
  rw [findBy_updateBy]
  cases h : findBy key l i with
  | none => rfl
  | some b =>
    have hb : key b = i := findBy_some_key h
    have hba : key b ≠ key a := by rw [hb]; exact fun hh => hk hh.symm
    simp [hba]

/-! ## Pricing core (app.py lines 117-154, 217-249) -/

/-- `line_amount`: signed amount of one line item; discounts are forced
non-positive. -/
def line_amount (li : LineItem) : ℚ :=
  let amt := li.qty * li.unit_price
  if li.item_type == "discount" then -|amt| else amt

/-- Current status of a job id, as the `job_status` dict in
`active_items_for_totals` sees it (missing job: `none`). -/
def jobStatusOf (jobs : List Job) (jid : Nat) : Option String :=
  (findBy Job.id jobs jid).map (fun j => j.status)

/-- True when the item is tagged to a job whose current status is
`declined` (such items are excluded from totals). -/
def itemExcluded (jobs : List Job) (i : LineItem) : Bool :=
  match i.job_id with
  | none => false
  | some jid => jobStatusOf jobs jid == some "declined"

/-- `active_items_for_totals`: keep untagged items and items whose job is
not declined. -/
def active_items_for_totals (jobs : List Job) (items : List LineItem) : List LineItem :=
  items.filter (fun i => !(itemExcluded jobs i))

/-- Whether the document is frozen: `status in ("locked", "paid") or
locked_at is not None`. -/
def isLockedDoc (d : Document) : Bool :=
  d.status == "locked" || d.status == "paid" || d.locked_at.isSome

/-- `recalc_document_totals`: recompute subtotal/tax/total of a document
from its active line items; no-op on locked/paid documents. -/
def recalc_document_totals (taxRate : ℚ) (jobs : List Job) (items : List LineItem)
    (doc : Document) : Document :=
  if isLockedDoc doc then doc
  else
    let docItems := items.filter (fun i => i.document_id == doc.id)
    let active := active_items_for_totals jobs docItems
    let subtotal := (active.map line_amount).sum
    let taxbase :=
      ((active.filter (fun i => i.taxable && i.item_type != "discount")).map line_amount).sum
    let tax := quant2 (taxbase * taxRate)
    { doc with subtotal := quant2 subtotal, tax := tax, total := quant2 (subtotal + tax) }

/-! ### Matrix lookups -/

/-- Ordering used by `LaborMatrixTier.query.order_by(min_hours.asc())`. -/
def laborTierLE (a b : LaborMatrixTier) : Prop := a.min_hours ≤ b.min_hours

instance : DecidableRel laborTierLE :=
  fun a b => inferInstanceAs (Decidable (a.min_hours ≤ b.min_hours))

/-- Ordering used by `PartsMatrixTier.query.order_by(min_cost.asc())`. -/
def partsTierLE (a b : PartsMatrixTier) : Prop := a.min_cost ≤ b.min_cost

instance : DecidableRel partsTierLE :=
  fun a b => inferInstanceAs (Decidable (a.min_cost ≤ b.min_cost))

def sortedLaborTiers (ts : List LaborMatrixTier) : List LaborMatrixTier :=
  List.insertionSort laborTierLE ts

def sortedPartsTiers (ts : List PartsMatrixTier) : List PartsMatrixTier :=
  List.insertionSort partsTierLE ts

/-- `min_hours <= hours and (max_hours is None or hours <= max_hours)`. -/
def laborTierMatches (t : LaborMatrixTier) (hours : ℚ) : Bool :=
  decide (t.min_hours ≤ hours) &&
    (match t.max_hours with
     | none => true
     | some m => decide (hours ≤ m))

/-- The `for t in tiers:` loop of `get_labor_rate_for_hours`. -/
def scanLaborTiers (hours : ℚ) : List LaborMatrixTier → Option ℚ
  | [] => none
  | t :: ts =>
    if laborTierMatches t hours then some (quant2 t.rate_per_hour)
    else scanLaborTiers hours ts

/-- `tiers[-1].rate_per_hour` of a nonempty tier list. -/
def lastTierRate : List LaborMatrixTier → ℚ
  | [] => 115
  | [t] => t.rate_per_hour
  | _ :: t :: ts => lastTierRate (t :: ts)

/-- `get_labor_rate_for_hours`: first matching tier in ascending
`min_hours` order; default 115/hr when no tiers; last tier on
fall-through. -/
def get_labor_rate_for_hours (tiers : List LaborMatrixTier) (hours : ℚ) : ℚ :=
  match sortedLaborTiers tiers with
  | [] => 115
  | t :: rest =>
    match scanLaborTiers hours (t :: rest) with
    | some r => r
    | none => quant2 (lastTierRate (t :: rest))

/-- `min_cost <= cost and (max_cost is None or cost <= max_cost)`. -/
def partsTierMatches (t : PartsMatrixTier) (cost : ℚ) : Bool :=
  decide (t.min_cost ≤ cost) &&
    (match t.max_cost with
     | none => true
     | some m => decide (cost ≤ m))

/-- The `for t in tiers:` loop of `get_parts_multiplier_for_cost` (the
multiplier is returned without quantization). -/
def scanPartsTiers (cost : ℚ) : List PartsMatrixTier → Option ℚ
  | [] => none
  | t :: ts =>
    if partsTierMatches t cost then some t.multiplier
    else scanPartsTiers cost ts

/-- `tiers[-1].multiplier` of a nonempty tier list. -/
def lastTierMult : List PartsMatrixTier → ℚ
  | [] => 13/10
  | [t] => t.multiplier
  | _ :: t :: ts => lastTierMult (t :: ts)

/-- `get_parts_multiplier_for_cost`: same scan over cost ranges, default
multiplier 1.3000 when no tiers. -/
def get_parts_multiplier_for_cost (tiers : List PartsMatrixTier) (cost : ℚ) : ℚ :=
  match sortedPartsTiers tiers with
  | [] => 13/10
  | t :: rest =>
    match scanPartsTiers cost (t :: rest) with
    | some m => m
    | none => lastTierMult (t :: rest)

/-! ## Handler operations

Each route handler becomes a function `AppState → ... → Except AppErr
AppState`.  `.error` models a redirect-with-flash or `abort` before any
commit, so the database state is unchanged in that case. -/

/-- Error outcomes of the handlers (flash-and-redirect or `abort`). -/
inductive AppErr where
  | notFound
  | locked
  | validationFailed (msg : String)
  | invalidTransition
  | wrongDocType
deriving DecidableEq, Repr

/-- State reached after running a handler: an error commits nothing. -/
def applyOp (st : AppState) (r : Except AppErr AppState) : AppState :=
  match r with
  | .ok st' => st'
  | .error _ => st

/-- Parsed form of the `add_line_item` POST body (`parse_decimal` results
are already `Option ℚ`; `taxable` is checkbox presence). -/
structure AddItemForm where
  item_type : String
  description : String
  job_id : Option Nat
  qty : Option ℚ
  taxable : Bool
  labor_hours : Option ℚ
  labor_rate : Option ℚ
  part_cost : Option ℚ
  part_price : Option ℚ
  fee_price : Option ℚ
  fee_cost : Option ℚ
  discount_amount : Option ℚ
  discount_cost : Option ℚ
deriving DecidableEq, Repr

/-- The `LineItem(...)` constructor call at the end of `add_line_item`. -/
def newLineItem (st : AppState) (doc : Document) (f : AddItemForm)
    (qty unit_price : ℚ) (taxable : Bool) (hours cost : Option ℚ) : LineItem :=
  { id := st.nextId
    document_id := doc.id
    job_id := f.job_id
    item_type := f.item_type
    description := f.description
    qty := qty
    unit_price := unit_price
    taxable := taxable
    labor_hours := hours
    cost := cost }

/-- `db.session.add(li); commit; recalc_document_totals(doc); commit`. -/
def commitNewItem (st : AppState) (doc : Document) (li : LineItem) : AppState :=
  let items1 := st.items ++ [li]
  let doc1 := recalc_document_totals st.taxRate st.jobs items1 doc
  { st with items := items1, docs := updateDoc st.docs doc1, nextId := st.nextId + 1 }

/-- `add_line_item` (app.py lines 1037-1155). -/
def add_line_item (st : AppState) (did : Nat) (f : AddItemForm) : Except AppErr AppState :=
  match findDoc st did with
  | none => .error .notFound
  | some doc =>
    if isLockedDoc doc then .error .locked
    else
      let qty0 := f.qty.getD 1
      if f.item_type == "labor" then
        match f.labor_hours with
        | none => .error (.validationFailed "Labor requires hours.")
        | some hours =>
          let rate := get_labor_rate_for_hours st.laborTiers hours
          let unit_price := f.labor_rate.getD rate
          .ok (commitNewItem st doc
            (newLineItem st doc f hours unit_price false (some hours) none))
      else if f.item_type == "part" then
        match f.part_cost with
        | none => .error (.validationFailed "Parts require cost.")
        | some cost =>
          let mult := get_parts_multiplier_for_cost st.partsTiers cost
          let unit_price :=
            match f.part_price with
            | none => quant2 (cost * mult)
            | some p => p
          .ok (commitNewItem st doc
            (newLineItem st doc f qty0 unit_price true none (some cost)))
      else if f.item_type == "fee" then
        match f.fee_price with
        | none => .error (.validationFailed "Fee requires a unit price.")
        | some p =>
          .ok (commitNewItem st doc
            (newLineItem st doc f qty0 p f.taxable none f.fee_cost))
      else if f.item_type == "discount" then
        match f.discount_amount with
        | none => .error (.validationFailed "Discount requires an amount.")
        | some a =>
          .ok (commitNewItem st doc
            (newLineItem st doc f qty0 (-|a|) false none f.discount_cost))
      else .error (.validationFailed "Invalid line item type.")

/-- `delete_item` (app.py lines 1159-1176). -/
def delete_item (st : AppState) (iid : Nat) : Except AppErr AppState :=
  match findItem st iid with
  | none => .error .notFound
  | some li =>
    match findDoc st li.document_id with
    | none => .error .notFound
    | some doc =>
      if isLockedDoc doc then .error .locked
      else
        let items1 := st.items.filter (fun i => i.id != li.id)
        let doc1 := recalc_document_totals st.taxRate st.jobs items1 doc
        .ok { st with items := items1, docs := updateDoc st.docs doc1 }

/-- Parsed form of the `edit_item` POST body. -/
structure EditItemForm where
  description : Option String
  qty : Option ℚ
  unit_price : Option ℚ
  taxable : Bool
  cost : Option ℚ
  labor_hours : Option ℚ
  job_id : Option Nat
deriving DecidableEq, Repr

/-- `edit_item` (app.py lines 1180-1223): patch the supplied fields, then
recalculate. -/
def edit_item (st : AppState) (iid : Nat) (f : EditItemForm) : Except AppErr AppState :=
  match findItem st iid with
  | none => .error .notFound
  | some li =>
    match findDoc st li.document_id with
    | none => .error .notFound
    | some doc =>
      if isLockedDoc doc then .error .locked
      else
        let li1 : LineItem :=
          { li with
            description := f.description.getD li.description
            qty := f.qty.getD li.qty
            unit_price := f.unit_price.getD li.unit_price
            taxable := f.taxable
            job_id := f.job_id
            cost := match f.cost with | some c => some c | none => li.cost
            labor_hours := match f.labor_hours with | some h => some h | none => li.labor_hours }
        let items1 := updateItem st.items li1
        let doc1 := recalc_document_totals st.taxRate st.jobs items1 doc
        .ok { st with items := items1, docs := updateDoc st.docs doc1 }

/-- A call site of `recalc_document_totals` followed by a commit (as in
`ro_detail` / `share_view`). -/
def recalc_op (st : AppState) (did : Nat) : Except AppErr AppState :=
  match findDoc st did with
  | none => .error .notFound
  | some doc =>
    .ok { st with docs := updateDoc st.docs (recalc_document_totals st.taxRate st.jobs st.items doc) }

/-- Allowed RepairOrder statuses in `ro_change_status`. -/
def validROStatus (s : String) : Bool :=
  s == "open" || s == "estimate_sent" || s == "work_in_progress" ||
    s == "closed" || s == "canceled"

/-- `ro_change_status` (app.py lines 864-884). -/
def ro_change_status (st : AppState) (rid : Nat) (new_status : String) :
    Except AppErr AppState :=
  match findRO st rid with
  | none => .error .notFound
  | some ro =>
    if !(validROStatus new_status) then .error .invalidTransition
    else
      let old := ro.status
      let ro1 := { ro with status := new_status }
      let ro2 :=
        if new_status == "closed" && ro1.closed_at.isNone
        then { ro1 with closed_at := some st.now } else ro1
      let ro3 := if new_status != "closed" then { ro2 with closed_at := none } else ro2
      .ok { st with
            ros := updateRO st.ros ro3
            events := st.events ++
              [{ ro_id := ro.id, event_type := "ro_status",
                 old_value := some old, new_value := some new_status }] }

/-- Allowed Job statuses in `job_set_status`. -/
def validJobStatus (s : String) : Bool :=
  s == "pending" || s == "approved" || s == "work_in_progress" ||
    s == "completed" || s == "declined"

/-- `job_set_status` (app.py lines 909-941), including the cascade that
promotes the RepairOrder to work_in_progress and the auto-close of the
RepairOrder when the last open job completes. -/
def job_set_status (st : AppState) (jid : Nat) (new_status : String) :
    Except AppErr AppState :=
  match findJob st jid with
  | none => .error .notFound
  | some job =>
    match findRO st job.ro_id with
    | none => .error .notFound
    | some ro =>
      if !(validJobStatus new_status) then .error .invalidTransition
      else
        let old := job.status
        let job1 := { job with status := new_status }
        let job2 :=
          if new_status == "completed" && job1.completed_at.isNone
          then { job1 with completed_at := some st.now } else job1
        let ev : ROEvent :=
          { ro_id := ro.id, event_type := "job_status",
            old_value := some (job.title ++ ":" ++ old),
            new_value := some (job.title ++ ":" ++ new_status) }
        let ro1 :=
          if (new_status == "approved" || new_status == "work_in_progress") &&
             (ro.status == "open" || ro.status == "estimate_sent")
          then { ro with status := "work_in_progress" } else ro
        let jobs1 := updateJob st.jobs job2
        if new_status == "completed" &&
           (jobs1.filter (fun j => j.ro_id == ro.id && j.status != "completed")).isEmpty then
          let ro2 := { ro1 with status := "closed", closed_at := some st.now }
          .ok { st with
                jobs := jobs1
                ros := updateRO st.ros ro2
                events := st.events ++
                  [ev, { ro_id := ro.id, event_type := "ro_completed",
                         old_value := none, new_value := some (toString st.now) }] }
        else
          .ok { st with
                jobs := jobs1
                ros := updateRO st.ros ro1
                events := st.events ++ [ev] }

/-- `lock_document` (app.py lines 1226-1247).  Note: locking an invoice
calls no `log_event`. -/
def lock_document (st : AppState) (did : Nat) : Except AppErr AppState :=
  match findDoc st did with
  | none => .error .notFound
  | some doc =>
    let doc0 := recalc_document_totals st.taxRate st.jobs st.items doc
    if doc.doc_type == "estimate" then
      match findRO st doc.ro_id with
      | none => .error .notFound
      | some ro =>
        let doc1 := { doc0 with sent_at := some st.now, status := "sent",
                                locked_at := some st.now }
        let ros1 :=
          if ro.status == "open" then updateRO st.ros { ro with status := "estimate_sent" }
          else st.ros
        .ok { st with
              docs := updateDoc st.docs doc1
              ros := ros1
              events := st.events ++
                [{ ro_id := doc.ro_id, event_type := "estimate_sent",
                   old_value := none, new_value := some (toString doc.id) }] }
    else
      let doc1 := { doc0 with status := "locked", locked_at := some st.now }
      .ok { st with docs := updateDoc st.docs doc1 }

/-- Fresh copies of the estimate's items for the invoice (the promotion
loop body of `approve_estimate`); ids are autogenerated. -/
def copyItems (startId : Nat) (target : Nat) (src : List LineItem) : List LineItem :=
  src.enum.map (fun p => { p.2 with id := startId + p.1, document_id := target })

/-- `approve_estimate` (app.py lines 1271-1314): set the estimate to
approved, the RepairOrder to work_in_progress, and promote the items into
the sibling invoice unless the invoice is locked/paid. -/
def approve_estimate (st : AppState) (did : Nat) : Except AppErr AppState :=
  match findDoc st did with
  | none => .error .notFound
  | some est =>
    if est.doc_type != "estimate" then .error .wrongDocType
    else
      match findRO st est.ro_id with
      | none => .error .notFound
      | some ro =>
        let est1 := { est with status := "approved" }
        let ro1 := { ro with status := "work_in_progress" }
        let ev : ROEvent :=
          { ro_id := est.ro_id, event_type := "approved",
            old_value := none, new_value := some (toString est.id) }
        match st.docs.find? (fun d => d.ro_id == ro.id && d.doc_type == "invoice" && d.version == 1) with
        | some inv =>
          if isLockedDoc inv then
            .ok { st with
                  docs := updateDoc st.docs est1
                  ros := updateRO st.ros ro1
                  events := st.events ++ [ev] }
          else
            let kept := st.items.filter (fun i => i.document_id != inv.id)
            let estItems := st.items.filter (fun i => i.document_id == est.id)
            let items1 := kept ++ copyItems st.nextId inv.id estItems
            let inv1 := recalc_document_totals st.taxRate st.jobs items1 inv
            .ok { st with
                  docs := updateDoc (updateDoc st.docs est1) inv1
                  ros := updateRO st.ros ro1
                  items := items1
                  events := st.events ++ [ev]
                  nextId := st.nextId + estItems.length }
        | none =>
          let inv : Document :=
            { id := st.nextId, ro_id := ro.id, doc_type := "invoice", version := 1,
              status := "draft", subtotal := 0, tax := 0, total := 0,
              sent_at := none, locked_at := none, share_token := none }
          let estItems := st.items.filter (fun i => i.document_id == est.id)
          let items1 := st.items ++ copyItems (st.nextId + 1) inv.id estItems
          let inv1 := recalc_document_totals st.taxRate st.jobs items1 inv
          .ok { st with
                docs := updateDoc st.docs est1 ++ [inv1]
                ros := updateRO st.ros ro1
                items := items1
                events := st.events ++ [ev]
                nextId := st.nextId + 1 + estItems.length }

/-- `job_delete` (app.py lines 972-987): retag the job's items to the
unassigned bucket, delete the job, log the deletion. -/
def job_delete (st : AppState) (jid : Nat) : Except AppErr AppState :=
  match findJob st jid with
  | none => .error .notFound
  | some job =>
    let items1 := st.items.map
      (fun li => if li.job_id == some job.id then { li with job_id := none } else li)
    let jobs1 := st.jobs.filter (fun j => j.id != job.id)
    .ok { st with
          items := items1
          jobs := jobs1
          events := st.events ++
            [{ ro_id := job.ro_id, event_type := "job_deleted",
               old_value := some (toString jid), new_value := none }] }

/-! ## Claim theorems -/

lemma isLockedDoc_totals_update (doc : Document) (a b c : ℚ) :
    isLockedDoc { doc with subtotal := a, tax := b, total := c } = isLockedDoc doc := rfl

/-- C1: for a document whose status is locked or paid or whose locked_at is
set, recalculate is a no-op on the document, and addLineItem,
deleteLineItem and editLineItem all fail with a lock error and commit
nothing, so the stored subtotal, tax, total and line items are
unchanged. -/
theorem C1_locked_document_frame
    (st : AppState) (did iid : Nat) (doc : Document) (li : LineItem)
    (f : AddItemForm) (g : EditItemForm)
    (hdoc : findDoc st did = some doc)
    (hlock : isLockedDoc doc = true)
    (hitem : findItem st iid = some li)
    (hbel : li.document_id = did) :
    recalc_document_totals st.taxRate st.jobs st.items doc = doc ∧
    add_line_item st did f = .error .locked ∧
    delete_item st iid = .error .locked ∧
    edit_item st iid g = .error .locked ∧
    applyOp st (add_line_item st did f) = st ∧
    applyOp st (delete_item st iid) = st ∧
    applyOp st (edit_item st iid g) = st := by
  have hrecalc : recalc_document_totals st.taxRate st.jobs st.items doc = doc := by
    unfold recalc_document_totals
    rw [hlock]
    simp
  have hadd : add_line_item st did f = .error .locked := by
    unfold add_line_item
    rw [hdoc]
    simp [hlock]
  have hdel : delete_item st iid = .error .locked := by
    unfold delete_item
    simp [hitem, hbel, hdoc, hlock]
  have hedit : edit_item st iid g = .error .locked := by
    unfold edit_item
    simp [hitem, hbel, hdoc, hlock]
  exact ⟨hrecalc, hadd, hdel, hedit,
    by rw [hadd]; rfl, by rw [hdel]; rfl, by rw [hedit]; rfl⟩

def w1doc : Document :=
  { id := 1, ro_id := 1, doc_type := "invoice", version := 1, status := "locked",
    subtotal := 5, tax := 0, total := 5, sent_at := none, locked_at := some 3,
    share_token := none }

def w1item : LineItem :=
  { id := 1, document_id := 1, job_id := none, item_type := "part",
    description := "filter", qty := 1, unit_price := 5, taxable := true,
    labor_hours := none, cost := some 2 }

def w1st : AppState :=
  { ros := [], jobs := [], docs := [w1doc], items := [w1item], events := [],
    laborTiers := [], partsTiers := [], taxRate := 7/100, now := 9, nextId := 2 }

def w1form : AddItemForm :=
  { item_type := "fee", description := "shop fee", job_id := none, qty := none,
    taxable := false, labor_hours := none, labor_rate := none, part_cost := none,
    part_price := none, fee_price := some 3, fee_cost := none,
    discount_amount := none, discount_cost := none }

def w1eform : EditItemForm :=
  { description := none, qty := none, unit_price := some 9, taxable := true,
    cost := none, labor_hours := none, job_id := none }

/-- Witness for C1 at a concrete locked invoice. -/
theorem C1_locked_document_frame_witness :
    findDoc w1st 1 = some w1doc ∧
    isLockedDoc w1doc = true ∧
    findItem w1st 1 = some w1item ∧
    w1item.document_id = 1 ∧
    (recalc_document_totals w1st.taxRate w1st.jobs w1st.items w1doc = w1doc ∧
     add_line_item w1st 1 w1form = .error .locked ∧
     delete_item w1st 1 = .error .locked ∧
     edit_item w1st 1 w1eform = .error .locked ∧
     applyOp w1st (add_line_item w1st 1 w1form) = w1st ∧
     applyOp w1st (delete_item w1st 1) = w1st ∧
     applyOp w1st (edit_item w1st 1 w1eform) = w1st) :=
  ⟨by decide, by decide, by decide, by decide,
   C1_locked_document_frame w1st 1 1 w1doc w1item w1form w1eform
     (by decide) (by decide) (by decide) (by decide)⟩

/-- C8: recalculate is idempotent: a second consecutive run with unchanged
line items, jobs and tax rate leaves subtotal, tax and total exactly as
the first run did. -/
theorem C8_recalculate_idempotent (taxRate : ℚ) (jobs : List Job)
    (items : List LineItem) (doc : Document) :
    recalc_document_totals taxRate jobs items (recalc_document_totals taxRate jobs items doc)
      = recalc_document_totals taxRate jobs items doc := by
  by_cases h : isLockedDoc doc = true
  · have h1 : recalc_document_totals taxRate jobs items doc = doc := by
      unfold recalc_document_totals
      rw [h]
      simp
    rw [h1, h1]
  · rw [Bool.not_eq_true] at h
    conv_lhs => unfold recalc_document_totals
    conv_rhs => unfold recalc_document_totals
    rw [h]
    simp only [Bool.false_eq_true, if_false, isLockedDoc_totals_update, h]

lemma scanLaborTiers_eq_find (hours : ℚ) (l : List LaborMatrixTier) :
    scanLaborTiers hours l
      = (l.find? (fun t => laborTierMatches t hours)).map (fun t => quant2 t.rate_per_hour) := by
  induction l with
  | nil => rfl
  | cons t ts ih =>
    unfold scanLaborTiers
    cases hm : laborTierMatches t hours
    · rw [if_neg (by simp [hm]), ih, List.find?_cons_of_neg _ (by simp [hm])]
    · rw [if_pos (by simp [hm]), List.find?_cons_of_pos _ (by simp [hm])]
      rfl

lemma mem_sortedLaborTiers {t : LaborMatrixTier} {tiers : List LaborMatrixTier} :
    t ∈ sortedLaborTiers tiers ↔ t ∈ tiers :=
  (List.perm_insertionSort laborTierLE tiers).mem_iff

lemma lastTierRate_mem :
    ∀ l : List LaborMatrixTier, l ≠ [] → ∃ t ∈ l, lastTierRate l = t.rate_per_hour
  | [], h => absurd rfl h
  | [t], _ => ⟨t, by simp, rfl⟩
  | a :: t :: ts, _ => by
    obtain ⟨u, hu, hr⟩ := lastTierRate_mem (t :: ts) (by simp)
    exact ⟨u, by simp only [List.mem_cons] at hu ⊢; tauto, by rw [lastTierRate]; exact hr⟩

lemma get_labor_rate_eq_of_find (tiers : List LaborMatrixTier) (hours : ℚ)
    (t : LaborMatrixTier)
    (hfind : (sortedLaborTiers tiers).find? (fun u => laborTierMatches u hours) = some t) :
    get_labor_rate_for_hours tiers hours = quant2 t.rate_per_hour := by
  unfold get_labor_rate_for_hours
  cases hs : sortedLaborTiers tiers with
  | nil => rw [hs] at hfind; simp at hfind
  | cons t0 rest =>
    rw [hs] at hfind
    show (match scanLaborTiers hours (t0 :: rest) with
          | some r => r
          | none => quant2 (lastTierRate (t0 :: rest))) = quant2 t.rate_per_hour
    rw [scanLaborTiers_eq_find, hfind]
    rfl

/-- C5: resolveLaborRate returns the rate of the first tier, in ascending
min_hours order, whose range contains the hours; the fixed default
115/hr when no tiers exist; and the last (highest) tier's rate when the
hours exceed every tier's bounded maximum. -/
theorem C5_resolve_labor_rate (tiers : List LaborMatrixTier) (hours : ℚ)
    (hq : ∀ t ∈ tiers, quant2 t.rate_per_hour = t.rate_per_hour) :
    (tiers = [] → get_labor_rate_for_hours tiers hours = 115) ∧
    (∀ t, (sortedLaborTiers tiers).find? (fun u => laborTierMatches u hours) = some t →
      get_labor_rate_for_hours tiers hours = t.rate_per_hour) ∧
    ((∀ t ∈ tiers, ∃ m, t.max_hours = some m ∧ m < hours) → tiers ≠ [] →
      get_labor_rate_for_hours tiers hours = lastTierRate (sortedLaborTiers tiers)) := by
  refine ⟨?_, ?_, ?_⟩
  · intro h
    subst h
    rfl
  · intro t hfind
    have hmem : t ∈ tiers := mem_sortedLaborTiers.mp (List.mem_of_find?_eq_some hfind)
    rw [get_labor_rate_eq_of_find tiers hours t hfind]
    exact hq t hmem
  · intro hall hne
    have hnone : (sortedLaborTiers tiers).find? (fun u => laborTierMatches u hours) = none := by
      rw [List.find?_eq_none]
      intro x hx
      obtain ⟨m, hm, hlt⟩ := hall x (mem_sortedLaborTiers.mp hx)
      simp only [laborTierMatches, hm, Bool.and_eq_true, decide_eq_true_eq, not_and]
      intro _
      simp [not_le.mpr hlt]
    unfold get_labor_rate_for_hours
    cases hs : sortedLaborTiers tiers with
    | nil =>
      have p := List.perm_insertionSort laborTierLE tiers
      unfold sortedLaborTiers at hs
      rw [hs] at p
      exact absurd p.symm.eq_nil hne
    | cons t0 rest =>
      rw [hs] at hnone
      show (match scanLaborTiers hours (t0 :: rest) with
            | some r => r
            | none => quant2 (lastTierRate (t0 :: rest))) = lastTierRate (t0 :: rest)
      rw [scanLaborTiers_eq_find, hnone]
      obtain ⟨u, hu, hr⟩ := lastTierRate_mem (t0 :: rest) (by simp)
      rw [hr]
      exact hq u (mem_sortedLaborTiers.mp (hs ▸ hu))

def w5tiers : List LaborMatrixTier := [⟨0, some 2, 100⟩, ⟨2, none, 85⟩]

/-- Witness for C5: the spec's scenario — tiers [(0,2,$100/hr),
(2,null,$85/hr)], 3 hours resolves to $85/hr. -/
theorem C5_resolve_labor_rate_witness :
    (∀ t ∈ w5tiers, quant2 t.rate_per_hour = t.rate_per_hour) ∧
    (sortedLaborTiers w5tiers).find? (fun u => laborTierMatches u 3)
      = some ⟨2, none, 85⟩ ∧
    get_labor_rate_for_hours w5tiers 3 = 85 := by
  have hq : ∀ t ∈ w5tiers, quant2 t.rate_per_hour = t.rate_per_hour := by
    intro t ht
    simp only [w5tiers, List.mem_cons, List.not_mem_nil, or_false] at ht
    rcases ht with h | h <;> subst h <;> norm_num [quant2, rhe]
  exact ⟨hq, by decide,
    (C5_resolve_labor_rate w5tiers 3 hq).2.1 ⟨2, none, 85⟩ (by decide)⟩

lemma active_of_prefiltered (jobs : List Job) (items : List LineItem) (p : LineItem → Bool) :
    active_items_for_totals jobs
        ((items.filter (fun i => !(itemExcluded jobs i))).filter p)
      = active_items_for_totals jobs (items.filter p) := by
  unfold active_items_for_totals
  simp only [List.filter_filter]
  apply List.filter_congr
  intro a _
  cases hex : itemExcluded jobs a <;> cases hp : p a <;> simp [hex, hp]

/-- C7: line items tagged to a declined job contribute nothing to
recalculate's subtotal, taxable base, tax and total (removing them from
storage changes nothing), yet they stay stored (recalc_op never touches
the items table); untagged items are always counted. -/
theorem C7_declined_job_soft_exclusion
    (taxRate : ℚ) (jobs : List Job) (items : List LineItem) (doc : Document)
    (st st' : AppState) (did : Nat) (li : LineItem) (jid : Nat) :
    (recalc_document_totals taxRate jobs (items.filter (fun i => !(itemExcluded jobs i))) doc
       = recalc_document_totals taxRate jobs items doc) ∧
    (li ∈ items → li.job_id = some jid → jobStatusOf jobs jid = some "declined" →
       itemExcluded jobs li = true ∧ li ∉ active_items_for_totals jobs items) ∧
    (li ∈ items → li.job_id = none → li ∈ active_items_for_totals jobs items) ∧
    (recalc_op st did = .ok st' → st'.items = st.items) := by
  refine ⟨?_, ?_, ?_, ?_⟩
  · unfold recalc_document_totals
    by_cases h : isLockedDoc doc = true
    · rw [h]
      simp
    · rw [Bool.not_eq_true] at h
      rw [h]
      simp only [Bool.false_eq_true, if_false]
      rw [active_of_prefiltered]
  · intro hmem hjid hstat
    have hex : itemExcluded jobs li = true := by
      simp [itemExcluded, hjid, hstat]
    refine ⟨hex, ?_⟩
    unfold active_items_for_totals
    rw [List.mem_filter]
    rintro ⟨-, hact⟩
    rw [hex] at hact
    simp at hact
  · intro hmem hnone
    unfold active_items_for_totals
    rw [List.mem_filter]
    exact ⟨hmem, by simp [itemExcluded, hnone]⟩
  · intro h
    unfold recalc_op at h
    cases hfd : findDoc st did with
    | none => rw [hfd] at h; simp at h
    | some d =>
      rw [hfd] at h
      simp only [Except.ok.injEq] at h
      rw [← h]

def w7jobA : Job :=
  { id := 1, ro_id := 1, title := "brakes", status := "declined", sort_order := 1,
    tech_id := none, completed_at := none }

def w7jobB : Job :=
  { id := 2, ro_id := 1, title := "oil", status := "approved", sort_order := 2,
    tech_id := none, completed_at := none }

def w7itemA : LineItem :=
  { id := 1, document_id := 1, job_id := some 1, item_type := "part",
    description := "pads", qty := 1, unit_price := 80, taxable := true,
    labor_hours := none, cost := some 40 }

def w7itemB : LineItem :=
  { id := 2, document_id := 1, job_id := none, item_type := "fee",
    description := "disposal", qty := 1, unit_price := 5, taxable := false,
    labor_hours := none, cost := none }

def w7doc : Document :=
  { id := 1, ro_id := 1, doc_type := "estimate", version := 1, status := "draft",
    subtotal := 0, tax := 0, total := 0, sent_at := none, locked_at := none,
    share_token := none }

def w7st : AppState :=
  { ros := [], jobs := [w7jobA, w7jobB], docs := [w7doc],
    items := [w7itemA, w7itemB], events := [], laborTiers := [], partsTiers := [],
    taxRate := 7/100, now := 0, nextId := 3 }

/-- Witness for C7: a declined job's item is excluded from the totals but
stays stored; the untagged item counts. -/
theorem C7_declined_job_soft_exclusion_witness :
    w7itemA ∈ w7st.items ∧ w7itemA.job_id = some 1 ∧
    jobStatusOf w7st.jobs 1 = some "declined" ∧
    w7itemB ∈ w7st.items ∧ w7itemB.job_id = none ∧
    (itemExcluded w7st.jobs w7itemA = true ∧
      w7itemA ∉ active_items_for_totals w7st.jobs w7st.items) ∧
    w7itemB ∈ active_items_for_totals w7st.jobs w7st.items ∧
    (recalc_document_totals w7st.taxRate w7st.jobs
        (w7st.items.filter (fun i => !(itemExcluded w7st.jobs i))) w7doc
      = recalc_document_totals w7st.taxRate w7st.jobs w7st.items w7doc) := by
  have h := C7_declined_job_soft_exclusion w7st.taxRate w7st.jobs w7st.items w7doc
    w7st w7st 1 w7itemA 1
  have h2 := C7_declined_job_soft_exclusion w7st.taxRate w7st.jobs w7st.items w7doc
    w7st w7st 1 w7itemB 1
  exact ⟨by decide, by decide, by decide, by decide, by decide,
    h.2.1 (by decide) (by decide) (by decide),
    h2.2.2.1 (by decide) (by decide), h.1⟩

/-- C9: adding a labor line item requires hours (validation error storing
nothing when missing); otherwise the stored quantity equals the hours, the
unit price is the explicit override if provided and otherwise
resolveLaborRate(hours), and the item is non-taxable no matter what the
caller sent. -/
theorem C9_add_labor_item
    (st : AppState) (did : Nat) (doc : Document) (f : AddItemForm)
    (hdoc : findDoc st did = some doc)
    (hnl : isLockedDoc doc = false)
    (htyp : f.item_type = "labor") :
    (f.labor_hours = none →
      add_line_item st did f = .error (.validationFailed "Labor requires hours.") ∧
      applyOp st (add_line_item st did f) = st) ∧
    (∀ h, f.labor_hours = some h →
      ∃ st' li, add_line_item st did f = .ok st' ∧
        st'.items = st.items ++ [li] ∧
        li.item_type = "labor" ∧
        li.qty = h ∧
        li.unit_price = f.labor_rate.getD (get_labor_rate_for_hours st.laborTiers h) ∧
        li.taxable = false ∧
        li.labor_hours = some h) := by
  constructor
  · intro hn
    have herr : add_line_item st did f = .error (.validationFailed "Labor requires hours.") := by
      unfold add_line_item
      rw [hdoc]
      simp [hnl, htyp, hn]
    exact ⟨herr, by rw [herr]; rfl⟩
  · intro h hh
    refine ⟨commitNewItem st doc
        (newLineItem st doc f h (f.labor_rate.getD (get_labor_rate_for_hours st.laborTiers h))
          false (some h) none),
      newLineItem st doc f h (f.labor_rate.getD (get_labor_rate_for_hours st.laborTiers h))
        false (some h) none, ?_, ?_, ?_, rfl, rfl, rfl, rfl⟩
    · unfold add_line_item
      rw [hdoc]
      simp [hnl, htyp, hh]
    · simp [commitNewItem]
    · simp [newLineItem, htyp]

def w9tiers : List LaborMatrixTier := [⟨0, some 2, 100⟩, ⟨2, none, 85⟩]

def w9doc : Document :=
  { id := 1, ro_id := 1, doc_type := "estimate", version := 1, status := "draft",
    subtotal := 0, tax := 0, total := 0, sent_at := none, locked_at := none,
    share_token := none }

def w9st : AppState :=
  { ros := [], jobs := [], docs := [w9doc], items := [], events := [],
    laborTiers := w9tiers, partsTiers := [], taxRate := 0, now := 0, nextId := 1 }

def w9form : AddItemForm :=
  { item_type := "labor", description := "diag", job_id := none, qty := some 1,
    taxable := true, labor_hours := some 3, labor_rate := none, part_cost := none,
    part_price := none, fee_price := none, fee_cost := none,
    discount_amount := none, discount_cost := none }

/-- Witness for C9: the spec's scenario — tiers [(0,2,$100/hr),
(2,null,$85/hr)], a 3-hour labor item stores qty 3, unit price 85,
taxable false, although the caller checked the taxable box. -/
theorem C9_add_labor_item_witness :
    findDoc w9st 1 = some w9doc ∧
    isLockedDoc w9doc = false ∧
    w9form.item_type = "labor" ∧
    w9form.labor_hours = some 3 ∧
    w9form.taxable = true ∧
    ∃ st' li, add_line_item w9st 1 w9form = .ok st' ∧
      st'.items = w9st.items ++ [li] ∧
      li.item_type = "labor" ∧
      li.qty = 3 ∧
      li.unit_price = 85 ∧
      li.taxable = false ∧
      li.labor_hours = some 3 := by
  have hrate : get_labor_rate_for_hours w9st.laborTiers 3 = 85 := by
    have hfind : (sortedLaborTiers w9st.laborTiers).find? (fun u => laborTierMatches u 3)
        = some ⟨2, none, 85⟩ := by decide
    rw [get_labor_rate_eq_of_find w9st.laborTiers 3 ⟨2, none, 85⟩ hfind]
    norm_num [quant2, rhe]
  obtain ⟨st', li, h1, h2, h3, h4, h5, h6, h7⟩ :=
    (C9_add_labor_item w9st 1 w9doc w9form (by decide) (by decide) (by decide)).2 3 (by decide)
  refine ⟨by decide, by decide, by decide, by decide, by decide,
    st', li, h1, h2, h3, h4, ?_, h6, h7⟩
  rw [h5]
  show (none : Option ℚ).getD (get_labor_rate_for_hours w9st.laborTiers 3) = 85
  rw [Option.getD_none, hrate]

/-- C10: deleting a job retags every line item of that job to the
unassigned bucket (job_id none) without deleting any item, and the
retagged items are active for any subsequent recalculate, since untagged
items are always counted. -/
theorem C10_job_delete_retags_items
    (st : AppState) (jid : Nat) (job : Job)
    (hjob : findJob st jid = some job) :
    ∃ st', job_delete st jid = .ok st' ∧
      st'.items.length = st.items.length ∧
      (∀ li ∈ st.items, li.job_id = some job.id →
        ({ li with job_id := none } : LineItem) ∈ st'.items ∧
        ({ li with job_id := none } : LineItem) ∈
          active_items_for_totals st'.jobs st'.items) ∧
      (∀ li ∈ st.items, li.job_id ≠ some job.id → li ∈ st'.items) ∧
      st'.jobs = st.jobs.filter (fun j => j.id != job.id) := by
  have hok : job_delete st jid = .ok { st with
      items := st.items.map
        (fun li => if li.job_id == some job.id then { li with job_id := none } else li)
      jobs := st.jobs.filter (fun j => j.id != job.id)
      events := st.events ++
        [{ ro_id := job.ro_id, event_type := "job_deleted",
           old_value := some (toString jid), new_value := none }] } := by
    unfold job_delete
    rw [hjob]
  refine ⟨_, hok, by simp, ?_, ?_, rfl⟩
  · intro li hmem htag
    have hfli : (fun li : LineItem =>
        if li.job_id == some job.id then { li with job_id := none } else li) li
        = { li with job_id := none } := by
      simp [htag]
    have hmem' : ({ li with job_id := none } : LineItem) ∈ st.items.map
        (fun li => if li.job_id == some job.id then { li with job_id := none } else li) := by
      rw [← hfli]
      exact List.mem_map_of_mem _ hmem
    refine ⟨hmem', ?_⟩
    unfold active_items_for_totals
    rw [List.mem_filter]
    exact ⟨hmem', by simp [itemExcluded]⟩
  · intro li hmem hne
    have hfli : (fun li : LineItem =>
        if li.job_id == some job.id then { li with job_id := none } else li) li = li := by
      simp only [beq_eq_false_iff_ne.mpr hne, Bool.false_eq_true, if_false]
    have := List.mem_map_of_mem
      (fun li : LineItem =>
        if li.job_id == some job.id then { li with job_id := none } else li) hmem
    rwa [hfli] at this

def w10job : Job :=
  { id := 1, ro_id := 1, title := "brakes", status := "declined", sort_order := 1,
    tech_id := none, completed_at := none }

def w10item : LineItem :=
  { id := 1, document_id := 1, job_id := some 1, item_type := "part",
    description := "pads", qty := 1, unit_price := 80, taxable := true,
    labor_hours := none, cost := some 40 }

def w10st : AppState :=
  { ros := [], jobs := [w10job], docs := [], items := [w10item], events := [],
    laborTiers := [], partsTiers := [], taxRate := 0, now := 0, nextId := 2 }

/-- Witness for C10: deleting the declined job keeps its item, now
untagged and counted as active again. -/
theorem C10_job_delete_retags_items_witness :
    findJob w10st 1 = some w10job ∧
    w10item ∈ w10st.items ∧ w10item.job_id = some w10job.id ∧
    ∃ st', job_delete w10st 1 = .ok st' ∧
      st'.items.length = w10st.items.length ∧
      ({ w10item with job_id := none } : LineItem) ∈ st'.items ∧
      ({ w10item with job_id := none } : LineItem) ∈
        active_items_for_totals st'.jobs st'.items := by
  obtain ⟨st', hok, hlen, htag, hunt, hjobs⟩ :=
    C10_job_delete_retags_items w10st 1 w10job (by decide)
  obtain ⟨hmem, hact⟩ := htag w10item (by decide) (by decide)
  exact ⟨by decide, by decide, by decide, st', hok, hlen, hmem, hact⟩

/-- C6: approving an estimate whose sibling invoice is already locked or
paid skips the promotion — the invoice row and the whole items table are
untouched — while the estimate still becomes approved and the owning
RepairOrder becomes work_in_progress. -/
theorem C6_approve_estimate_locked_invoice
    (st : AppState) (did : Nat) (est inv : Document) (ro : RepairOrder)
    (hest : findDoc st did = some est)
    (htype : est.doc_type = "estimate")
    (hro : findRO st est.ro_id = some ro)
    (hinv : st.docs.find?
        (fun d => d.ro_id == ro.id && d.doc_type == "invoice" && d.version == 1) = some inv)
    (hinvid : findDoc st inv.id = some inv)
    (hlock : isLockedDoc inv = true)
    (hne : inv.id ≠ est.id) :
    ∃ st', approve_estimate st did = .ok st' ∧
      st'.items = st.items ∧
      findDoc st' inv.id = some inv ∧
      findDoc st' est.id = some { est with status := "approved" } ∧
      findRO st' ro.id = some { ro with status := "work_in_progress" } := by
  have hok : approve_estimate st did = .ok { st with
      docs := updateDoc st.docs { est with status := "approved" }
      ros := updateRO st.ros { ro with status := "work_in_progress" }
      events := st.events ++
        [{ ro_id := est.ro_id, event_type := "approved",
           old_value := none, new_value := some (toString est.id) }] } := by
    unfold approve_estimate
    rw [hest]
    simp only [htype, bne_self_eq_false, Bool.false_eq_true, if_false, hro, hinv, hlock,
      if_true]
  have hestid : est.id = did := findBy_some_key hest
  have hroid : ro.id = est.ro_id := findBy_some_key hro
  refine ⟨_, hok, rfl, ?_, ?_, ?_⟩
  · show findBy Document.id (updateBy Document.id st.docs { est with status := "approved" })
      inv.id = some inv
    rw [findBy_updateBy_other Document.id st.docs inv.id
      { est with status := "approved" } (by exact hne.symm)]
    exact hinvid
  · show findBy Document.id (updateBy Document.id st.docs { est with status := "approved" })
      est.id = some { est with status := "approved" }
    exact findBy_updateBy_self Document.id st.docs est.id _ est (hestid ▸ hest) rfl
  · show findBy RepairOrder.id
      (updateBy RepairOrder.id st.ros { ro with status := "work_in_progress" })
      ro.id = some { ro with status := "work_in_progress" }
    exact findBy_updateBy_self RepairOrder.id st.ros ro.id _ ro (hroid ▸ hro) rfl

def w6est : Document :=
  { id := 1, ro_id := 1, doc_type := "estimate", version := 1, status := "sent",
    subtotal := 150, tax := 7, total := 157, sent_at := some 4, locked_at := none,
    share_token := none }

def w6inv : Document :=
  { id := 2, ro_id := 1, doc_type := "invoice", version := 1, status := "locked",
    subtotal := 150, tax := 7, total := 157, sent_at := none, locked_at := some 5,
    share_token := none }

def w6ro : RepairOrder :=
  { id := 1, ro_number := 1001, status := "estimate_sent", closed_at := none,
    deleted_at := none }

def w6st : AppState :=
  { ros := [w6ro], jobs := [], docs := [w6est, w6inv],
    items :=
      [{ id := 1, document_id := 1, job_id := none, item_type := "part",
         description := "pads", qty := 1, unit_price := 100, taxable := true,
         labor_hours := none, cost := some 40 },
       { id := 2, document_id := 2, job_id := none, item_type := "part",
         description := "pads", qty := 1, unit_price := 100, taxable := true,
         labor_hours := none, cost := some 40 }],
    events := [], laborTiers := [], partsTiers := [], taxRate := 7/100, now := 6,
    nextId := 3 }

/-- Witness for C6 at a concrete locked invoice: approval changes the
estimate and the RepairOrder but not the items or the invoice row. -/
theorem C6_approve_estimate_locked_invoice_witness :
    findDoc w6st 1 = some w6est ∧
    w6est.doc_type = "estimate" ∧
    isLockedDoc w6inv = true ∧
    ∃ st', approve_estimate w6st 1 = .ok st' ∧
      st'.items = w6st.items ∧
      findDoc st' 2 = some w6inv ∧
      findDoc st' 1 = some { w6est with status := "approved" } ∧
      findRO st' 1 = some { w6ro with status := "work_in_progress" } := by
  obtain ⟨st', hok, hitems, hinv2, hest2, hro2⟩ :=
    C6_approve_estimate_locked_invoice w6st 1 w6est w6inv w6ro
      (by decide) (by decide) (by decide) (by decide) (by decide) (by decide) (by decide)
  exact ⟨by decide, by decide, by decide, st', hok, hitems, hinv2, hest2, hro2⟩

def c3doc : Document :=
  { id := 1, ro_id := 1, doc_type := "estimate", version := 1, status := "draft",
    subtotal := 0, tax := 0, total := 0, sent_at := none, locked_at := none,
    share_token := none }

def c3item : LineItem :=
  { id := 1, document_id := 1, job_id := none, item_type := "discount",
    description := "coupon", qty := 1, unit_price := -5, taxable := false,
    labor_hours := none, cost := none }

def c3st : AppState :=
  { ros := [], jobs := [], docs := [c3doc], items := [c3item], events := [],
    laborTiers := [], partsTiers := [], taxRate := 0, now := 0, nextId := 2 }

def c3form : EditItemForm :=
  { description := none, qty := none, unit_price := some 50, taxable := false,
    cost := none, labor_hours := none, job_id := none }

/-- Counterexample to C3: editLineItem stores the caller's unit price
verbatim, so a discount item's stored unit price can end up +50 > 0. -/
theorem C3_discount_sign_counterexample :
    ((edit_item c3st 1 c3form).toOption.bind (fun s => findItem s 1)).map
        (fun li => (li.item_type, li.unit_price)) = some ("discount", 50) ∧
    ¬ ((50 : ℚ) ≤ 0) := by
  constructor
  · rfl
  · decide

/-- C3 (amended): addLineItem normalizes a discount's stored unit price to
−|amount| ≤ 0, and every stored discount item — whichever operation last
wrote it and whatever the sign of its stored price — contributes
line_amount ≤ 0 to the subtotal; editLineItem itself, however, stores the
supplied unit price unmodified. -/
theorem C3_discount_sign_amended
    (st : AppState) (did : Nat) (doc : Document) (f : AddItemForm) (li : LineItem)
    (hdoc : findDoc st did = some doc)
    (hnl : isLockedDoc doc = false)
    (htyp : f.item_type = "discount") :
    (∀ a, f.discount_amount = some a →
      ∃ st' li', add_line_item st did f = .ok st' ∧
        st'.items = st.items ++ [li'] ∧
        li'.item_type = "discount" ∧
        li'.unit_price = -|a| ∧
        li'.unit_price ≤ 0 ∧
        line_amount li' ≤ 0) ∧
    (li.item_type = "discount" → line_amount li ≤ 0) := by
  constructor
  · intro a ha
    refine ⟨commitNewItem st doc
        (newLineItem st doc f (f.qty.getD 1) (-|a|) false none f.discount_cost),
      newLineItem st doc f (f.qty.getD 1) (-|a|) false none f.discount_cost,
      ?_, ?_, ?_, rfl, ?_, ?_⟩
    · unfold add_line_item
      rw [hdoc]
      simp [hnl, htyp, ha]
    · simp [commitNewItem]
    · simp [newLineItem, htyp]
    · exact neg_nonpos.mpr (abs_nonneg a)
    · have ht : (newLineItem st doc f (f.qty.getD 1) (-|a|) false none
          f.discount_cost).item_type = "discount" := by simp [newLineItem, htyp]
      unfold line_amount
      rw [ht]
      simp only [beq_self_eq_true, if_true]
      exact neg_nonpos.mpr (abs_nonneg _)
  · intro h
    unfold line_amount
    rw [h]
    simp only [beq_self_eq_true, if_true]
    exact neg_nonpos.mpr (abs_nonneg _)

def w3form : AddItemForm :=
  { item_type := "discount", description := "coupon", job_id := none, qty := none,
    taxable := true, labor_hours := none, labor_rate := none, part_cost := none,
    part_price := none, fee_price := none, fee_cost := none,
    discount_amount := some 25, discount_cost := none }

/-- Witness for the amended C3: adding a discount with a positive amount
stores unit price −25 ≤ 0 and a non-positive contribution. -/
theorem C3_discount_sign_amended_witness :
    findDoc c3st 1 = some c3doc ∧
    isLockedDoc c3doc = false ∧
    w3form.item_type = "discount" ∧
    w3form.discount_amount = some 25 ∧
    c3item.item_type = "discount" ∧
    line_amount c3item ≤ 0 ∧
    ∃ st' li', add_line_item c3st 1 w3form = .ok st' ∧
      st'.items = c3st.items ++ [li'] ∧
      li'.item_type = "discount" ∧
      li'.unit_price = -25 ∧
      li'.unit_price ≤ 0 ∧
      line_amount li' ≤ 0 := by
  have h := C3_discount_sign_amended c3st 1 c3doc w3form c3item
    (by decide) (by decide) (by decide)
  obtain ⟨st', li', h1, h2, h3, h4, h5, h6⟩ := h.1 25 rfl
  refine ⟨by decide, by decide, by decide, by decide, by decide,
    h.2 (by decide), st', li', h1, h2, h3, ?_, h5, h6⟩
  rw [h4]
  norm_num

/-- The active line items of one document, as fetched by
`recalc_document_totals`. -/
def activeDocItems (jobs : List Job) (items : List LineItem) (doc : Document) :
    List LineItem :=
  active_items_for_totals jobs (items.filter (fun i => i.document_id == doc.id))

/-- The unquantized subtotal summed by `recalc_document_totals`. -/
def rawSubtotal (jobs : List Job) (items : List LineItem) (doc : Document) : ℚ :=
  ((activeDocItems jobs items doc).map line_amount).sum

/-- The unquantized taxable base summed by `recalc_document_totals`. -/
def rawTaxbase (jobs : List Job) (items : List LineItem) (doc : Document) : ℚ :=
  (((activeDocItems jobs items doc).filter
      (fun i => i.taxable && i.item_type != "discount")).map line_amount).sum

lemma line_amount_nondiscount {li : LineItem} (h : (li.item_type == "discount") = false) :
    line_amount li = li.qty * li.unit_price := by
  unfold line_amount
  rw [h]
  simp

lemma recalc_not_locked_eq (taxRate : ℚ) (jobs : List Job) (items : List LineItem)
    (doc : Document) (hnl : isLockedDoc doc = false) :
    recalc_document_totals taxRate jobs items doc
      = { doc with
          subtotal := quant2 (rawSubtotal jobs items doc)
          tax := quant2 (rawTaxbase jobs items doc * taxRate)
          total := quant2 (rawSubtotal jobs items doc
            + quant2 (rawTaxbase jobs items doc * taxRate)) } := by
  unfold recalc_document_totals
  rw [if_neg (by simp [hnl])]
  rfl

def c4doc : Document :=
  { id := 1, ro_id := 1, doc_type := "estimate", version := 1, status := "draft",
    subtotal := 0, tax := 0, total := 0, sent_at := none, locked_at := none,
    share_token := none }

def c4itemA : LineItem :=
  { id := 1, document_id := 1, job_id := none, item_type := "part",
    description := "pads", qty := 1, unit_price := 9, taxable := true,
    labor_hours := none, cost := none }

def c4itemB : LineItem :=
  { id := 2, document_id := 1, job_id := none, item_type := "fee",
    description := "sub-cent fee", qty := 1/10, unit_price := 1/20,
    taxable := false, labor_hours := none, cost := none }

def c4items : List LineItem := [c4itemA, c4itemB]

/-- Counterexample to C4: with tax rate 0.07 and raw subtotal 9.005 the
stored total (9.64) differs from stored subtotal + tax (9.00 + 0.63),
because the code quantizes the unrounded subtotal when forming the
total. -/
theorem C4_total_not_sum_counterexample :
    (recalc_document_totals (7/100) [] c4items c4doc).total ≠
      (recalc_document_totals (7/100) [] c4items c4doc).subtotal +
        (recalc_document_totals (7/100) [] c4items c4doc).tax := by
  have hr := recalc_not_locked_eq (7/100) [] c4items c4doc (by decide)
  have hlist : activeDocItems [] c4items c4doc = c4items := by
    simp [activeDocItems, active_items_for_totals, itemExcluded, c4items, c4itemA,
      c4itemB, c4doc]
  have hsub : rawSubtotal [] c4items c4doc = 9 + 1/200 := by
    unfold rawSubtotal
    rw [hlist]
    unfold c4items
    rw [List.map_cons, List.map_cons, List.map_nil,
      line_amount_nondiscount (by decide), line_amount_nondiscount (by decide)]
    norm_num [c4itemA, c4itemB]
  have htaxb : rawTaxbase [] c4items c4doc = 9 := by
    unfold rawTaxbase
    rw [hlist]
    have hfil : c4items.filter (fun i => i.taxable && i.item_type != "discount")
        = [c4itemA] := by
      simp [c4items, c4itemA, c4itemB]
    rw [hfil, List.map_cons, List.map_nil, line_amount_nondiscount (by decide)]
    norm_num [c4itemA]
  rw [hr]
  show quant2 (rawSubtotal [] c4items c4doc + quant2 (rawTaxbase [] c4items c4doc * (7/100)))
      ≠ quant2 (rawSubtotal [] c4items c4doc) + quant2 (rawTaxbase [] c4items c4doc * (7/100))
  rw [hsub, htaxb]
  norm_num [quant2, rhe]

/-- C4 (amended): after recalculate on an unlocked document, subtotal and
tax are the 2-dp quantizations computed over active items (tax only over
taxable, non-discount ones), and total is the quantization of the
unrounded subtotal plus tax; whenever every active line amount is a whole
number of cents, total = subtotal + tax holds exactly. -/
theorem C4_totals_amended
    (taxRate : ℚ) (jobs : List Job) (items : List LineItem) (doc : Document)
    (hnl : isLockedDoc doc = false)
    (hcents : ∀ li ∈ activeDocItems jobs items doc, isCents (line_amount li)) :
    (recalc_document_totals taxRate jobs items doc).subtotal
        = quant2 (rawSubtotal jobs items doc) ∧
    (recalc_document_totals taxRate jobs items doc).tax
        = quant2 (rawTaxbase jobs items doc * taxRate) ∧
    (recalc_document_totals taxRate jobs items doc).total
        = (recalc_document_totals taxRate jobs items doc).subtotal
          + (recalc_document_totals taxRate jobs items doc).tax := by
  have hS : isCents (rawSubtotal jobs items doc) := by
    apply isCents_sum
    intro x hx
    obtain ⟨li, hli, hlie⟩ := List.mem_map.mp hx
    exact hlie ▸ hcents li hli
  have hT : isCents (quant2 (rawTaxbase jobs items doc * taxRate)) := isCents_quant2 _
  rw [recalc_not_locked_eq taxRate jobs items doc hnl]
  refine ⟨rfl, rfl, ?_⟩
  show quant2 (rawSubtotal jobs items doc + quant2 (rawTaxbase jobs items doc * taxRate))
      = quant2 (rawSubtotal jobs items doc) + quant2 (rawTaxbase jobs items doc * taxRate)
  rw [quant2_eq_self (isCents_add hS hT), quant2_eq_self hS]

def w4items : List LineItem :=
  [{ id := 1, document_id := 1, job_id := none, item_type := "part",
     description := "pads", qty := 1, unit_price := 100, taxable := true,
     labor_hours := none, cost := none },
   { id := 2, document_id := 1, job_id := none, item_type := "fee",
     description := "shop fee", qty := 1, unit_price := 50, taxable := false,
     labor_hours := none, cost := none }]

/-- Witness for the amended C4: the spec's scenario — items $100 taxable
and $50 non-taxable at rate 0.07 — satisfies the cent-precision premise,
and total = subtotal + tax exactly. -/
theorem C4_totals_amended_witness :
    isLockedDoc c4doc = false ∧
    (∀ li ∈ activeDocItems [] w4items c4doc, isCents (line_amount li)) ∧
    (recalc_document_totals (7/100) [] w4items c4doc).subtotal
        = quant2 (rawSubtotal [] w4items c4doc) ∧
    (recalc_document_totals (7/100) [] w4items c4doc).tax
        = quant2 (rawTaxbase [] w4items c4doc * (7/100)) ∧
    (recalc_document_totals (7/100) [] w4items c4doc).total
        = (recalc_document_totals (7/100) [] w4items c4doc).subtotal
          + (recalc_document_totals (7/100) [] w4items c4doc).tax := by
  have hcents : ∀ li ∈ activeDocItems [] w4items c4doc, isCents (line_amount li) := by
    have hlist : activeDocItems [] w4items c4doc = w4items := by decide
    rw [hlist]
    intro li hli
    simp only [w4items, List.mem_cons, List.not_mem_nil, or_false] at hli
    rcases hli with h | h
    · subst h
      rw [line_amount_nondiscount (by decide), isCents_iff]
      exact ⟨10000, by norm_num⟩
    · subst h
      rw [line_amount_nondiscount (by decide), isCents_iff]
      exact ⟨5000, by norm_num⟩
  obtain ⟨h1, h2, h3⟩ := C4_totals_amended (7/100) [] w4items c4doc (by decide) hcents
  exact ⟨by decide, hcents, h1, h2, h3⟩

lemma recalc_id (taxRate : ℚ) (jobs : List Job) (items : List LineItem) (doc : Document) :
    (recalc_document_totals taxRate jobs items doc).id = doc.id := by
  unfold recalc_document_totals
  split <;> rfl

lemma exists_ok_of_ite {C : Prop} [Decidable C] (a b : AppState) (Q : AppState → Prop)
    (ha : Q a) (hb : Q b) :
    ∃ st', (if C then Except.ok a else Except.ok b : Except AppErr AppState) = .ok st'
      ∧ Q st' := by
  by_cases h : C
  · exact ⟨a, by rw [if_pos h], ha⟩
  · exact ⟨b, by rw [if_neg h], hb⟩

def c2ro : RepairOrder :=
  { id := 1, ro_number := 1001, status := "open", closed_at := none,
    deleted_at := none }

def c2inv : Document :=
  { id := 10, ro_id := 1, doc_type := "invoice", version := 1, status := "draft",
    subtotal := 0, tax := 0, total := 0, sent_at := none, locked_at := none,
    share_token := none }

def c2st : AppState :=
  { ros := [c2ro], jobs := [], docs := [c2inv], items := [], events := [],
    laborTiers := [], partsTiers := [], taxRate := 0, now := 7, nextId := 11 }

def c2job : Job :=
  { id := 1, ro_id := 1, title := "J1", status := "pending", sort_order := 1,
    tech_id := none, completed_at := none }

def c2st2 : AppState :=
  { ros := [c2ro], jobs := [c2job], docs := [], items := [], events := [],
    laborTiers := [], partsTiers := [], taxRate := 0, now := 8, nextId := 2 }

/-- Counterexample to C2: locking a draft invoice mutates its status to
locked yet appends no AuditEvent at all, and approving a job mutates both
the job and (by cascade) the RepairOrder status while appending exactly
one event (for the job only). -/
theorem C2_audit_events_counterexample :
    (∃ st', lock_document c2st 10 = .ok st' ∧
      (findDoc c2st 10).map Document.status = some "draft" ∧
      (findDoc st' 10).map Document.status = some "locked" ∧
      st'.events = c2st.events) ∧
    (∃ st', job_set_status c2st2 1 "approved" = .ok st' ∧
      (findRO c2st2 1).map RepairOrder.status = some "open" ∧
      (findRO st' 1).map RepairOrder.status = some "work_in_progress" ∧
      (findJob st' 1).map Job.status = some "approved" ∧
      st'.events.length = c2st2.events.length + 1 ∧
      ∀ e ∈ st'.events, e.event_type = "job_status") := by
  constructor
  · exact ⟨_, rfl, rfl, rfl, rfl⟩
  · refine ⟨_, rfl, rfl, rfl, rfl, rfl, ?_⟩
    decide

/-- C2 (amended): changeRepairOrderStatus appends exactly one AuditEvent
recording the RepairOrder's old and new status; setJobStatus appends
exactly one job_status AuditEvent recording the job's old and new status
(plus possibly one ro_completed event for the auto-close cascade, which
records a timestamp, not old/new status); but locking an invoice appends
no AuditEvent although it mutates the document's status, and the cascade
promotions of the RepairOrder inside setJobStatus append no event of
their own. -/
theorem C2_audit_events_amended
    (st1 : AppState) (rid : Nat) (ro : RepairOrder) (s1 : String)
    (st2 : AppState) (jid : Nat) (job : Job) (ro2 : RepairOrder) (s2 : String)
    (st3 : AppState) (did : Nat) (d : Document)
    (hro : findRO st1 rid = some ro)
    (hs1 : validROStatus s1 = true)
    (hjob : findJob st2 jid = some job)
    (hro2 : findRO st2 job.ro_id = some ro2)
    (hs2 : validJobStatus s2 = true)
    (hdoc : findDoc st3 did = some d)
    (htype : d.doc_type ≠ "estimate") :
    (∃ st', ro_change_status st1 rid s1 = .ok st' ∧
      st'.events = st1.events ++
        [{ ro_id := ro.id, event_type := "ro_status",
           old_value := some ro.status, new_value := some s1 }]) ∧
    (∃ st', job_set_status st2 jid s2 = .ok st' ∧
      ∃ extra, st'.events = st2.events ++
          ({ ro_id := ro2.id, event_type := "job_status",
             old_value := some (job.title ++ ":" ++ job.status),
             new_value := some (job.title ++ ":" ++ s2) } :: extra) ∧
        ∀ e ∈ extra, e.event_type = "ro_completed") ∧
    (∃ st', lock_document st3 did = .ok st' ∧
      st'.events = st3.events ∧
      (findDoc st' d.id).map Document.status = some "locked") := by
  refine ⟨?_, ?_, ?_⟩
  · unfold ro_change_status
    simp only [hro]
    rw [if_neg (by simp [hs1])]
    exact ⟨_, rfl, rfl⟩
  · unfold job_set_status
    simp only [hjob, hro2]
    rw [if_neg (by simp [hs2])]
    apply exists_ok_of_ite
    · exact ⟨[(⟨ro2.id, "ro_completed", none, some (toString st2.now)⟩ : ROEvent)],
        rfl, by simp⟩
    · exact ⟨[], rfl, by simp⟩
  · have hid : d.id = did := findBy_some_key hdoc
    unfold lock_document
    simp only [hdoc]
    rw [if_neg (by simp [htype])]
    refine ⟨_, rfl, rfl, ?_⟩
    have hfind := findBy_updateBy_self Document.id st3.docs d.id
      { recalc_document_totals st3.taxRate st3.jobs st3.items d with
        status := "locked", locked_at := some st3.now } d (hid ▸ hdoc)
      (recalc_id st3.taxRate st3.jobs st3.items d)
    show (findBy Document.id (updateBy Document.id st3.docs
        { recalc_document_totals st3.taxRate st3.jobs st3.items d with
          status := "locked", locked_at := some st3.now }) d.id).map Document.status
      = some "locked"
    rw [hfind]
    rfl

/-- Witness for the amended C2 at concrete states: a RepairOrder status
change and a job decline each log one old/new event; an invoice lock logs
none. -/
theorem C2_audit_events_amended_witness :
    findRO c2st2 1 = some c2ro ∧
    validROStatus "canceled" = true ∧
    findJob c2st2 1 = some c2job ∧
    findRO c2st2 c2job.ro_id = some c2ro ∧
    validJobStatus "declined" = true ∧
    findDoc c2st 10 = some c2inv ∧
    c2inv.doc_type ≠ "estimate" ∧
    ((∃ st', ro_change_status c2st2 1 "canceled" = .ok st' ∧
       st'.events = c2st2.events ++
         [{ ro_id := c2ro.id, event_type := "ro_status",
            old_value := some c2ro.status, new_value := some "canceled" }]) ∧
     (∃ st', job_set_status c2st2 1 "declined" = .ok st' ∧
       ∃ extra, st'.events = c2st2.events ++
           ({ ro_id := c2ro.id, event_type := "job_status",
              old_value := some (c2job.title ++ ":" ++ c2job.status),
              new_value := some (c2job.title ++ ":" ++ "declined") } :: extra) ∧
         ∀ e ∈ extra, e.event_type = "ro_completed") ∧
     (∃ st', lock_document c2st 10 = .ok st' ∧
       st'.events = c2st.events ∧
       (findDoc st' c2inv.id).map Document.status = some "locked")) := by
  refine ⟨by decide, by decide, by decide, by decide, by decide, by decide, by decide, ?_⟩
  exact C2_audit_events_amended c2st2 1 c2ro "canceled" c2st2 1 c2job c2ro "declined"
    c2st 10 c2inv (by decide) (by decide) (by decide) (by decide) (by decide)
    (by decide) (by decide)

end ShopCRM
